import Mathlib

/-!
# Verification of the `cdu` dynamic-DNS updater

Shallow embedding of the Rust sources of `cdu` (a Cloudflare dynamic-DNS
updater) and proofs about its behaviour.  The embedding follows the five
source files:

* `src/network.rs`   — outside-IP resolution (`get_outside_ip`)
* `src/config.rs`    — persisted state (`Config`, `load`, `save`)
* `src/cloudflare.rs`— DNS provider client (`Handler`, `get_a_record`,
  `update_a_record`)
* `src/webhook.rs`   — notifier (`send`)
* `src/main.rs`      — the orchestrator (`app`)

External effects (HTTP responses, the file system, clock, environment
variables) are passed in explicitly as data; fallible operations return
`Except`.  Machine-level details that no behaviour of the program depends
on (TLS, exact `reqwest` error strings) are represented by opaque string
messages supplied by the environment.
-/

namespace Cdu

/-- An IPv4 address, as `std::net::Ipv4Addr`: four octets.  The Rust type
guarantees each octet fits in 8 bits; the parser below only produces
octets `≤ 255`. -/
structure Ipv4 where
  a : Nat
  b : Nat
  c : Nat
  d : Nat
deriving DecidableEq, Repr

/-- `Ipv4Addr`'s `Display`: dotted decimal, used by `new_ip.to_string()`
in `cloudflare.rs` and by message formatting in `main.rs`. -/
def ipToString (ip : Ipv4) : String :=
  toString ip.a ++ "." ++ toString ip.b ++ "." ++ toString ip.c ++ "." ++ toString ip.d

/-- An ASCII whitespace character, for `str::trim`.  (Rust trims any
Unicode whitespace; the bodies the program meets are ASCII.) -/
def isWs (c : Char) : Bool :=
  c = ' ' ∨ c = '\t' ∨ c = '\n' ∨ c = '\r'

/-- `str::trim`: drop whitespace from both ends. -/
def trimChars (l : List Char) : List Char :=
  ((l.dropWhile isWs).reverse.dropWhile isWs).reverse

/-- `str::trim` lifted to `String` (`response_text.trim()` in
`network.rs`). -/
def rustTrim (s : String) : String :=
  ⟨trimChars s.data⟩

/-- Split a character list on `'.'`, keeping empty groups — the grouping
`Ipv4Addr`'s parser performs on its input. -/
def splitOnDot : List Char → List (List Char)
  | [] => [[]]
  | c :: rest =>
    match splitOnDot rest with
    | [] => [[c]]
    | g :: gs => if c = '.' then [] :: g :: gs else (c :: g) :: gs

/-- The numeric value of an ASCII digit, `none` for any other
character. -/
def digitVal (c : Char) : Option Nat :=
  if '0' ≤ c ∧ c ≤ '9' then some (c.toNat - 48) else none

/-- Parse a run of ASCII digits as a decimal number; `none` as soon as a
non-digit appears. -/
def parseDecimal (l : List Char) : Option Nat :=
  l.foldl (fun acc c =>
    match acc, digitVal c with
    | some n, some d => some (n * 10 + d)
    | _, _ => none) (some 0)

/-- One dotted-decimal octet, as accepted by Rust's `Ipv4Addr` `FromStr`:
one to three ASCII digits, no leading zero (except `"0"` itself), value
at most 255. -/
def parseOctet (l : List Char) : Option Nat :=
  if l.length = 0 ∨ 3 < l.length then none
  else if 1 < l.length ∧ l.head? = some '0' then none
  else match parseDecimal l with
    | some n => if n ≤ 255 then some n else none
    | none => none

/-- Rust's `Ipv4Addr` `FromStr` (`response_text.trim().parse()` in
`network.rs`): exactly four octets separated by dots. -/
def parseIpv4 (s : String) : Option Ipv4 :=
  match splitOnDot s.data with
  | [pa, pb, pc, pd] =>
    match parseOctet pa, parseOctet pb, parseOctet pc, parseOctet pd with
    | some na, some nb, some nc, some nd => some ⟨na, nb, nc, nd⟩
    | _, _, _, _ => none
  | _ => none

/-! ## `src/network.rs` — the IP Resolver -/

/-- The outcome of `client.get(url).send()` followed by `response.text()`
for one echo endpoint: either a transport-level failure (of the send or of
reading the body, both propagated with `?` in the source) or the full
response body text. -/
inductive HttpOutcome where
  | transportErr (msg : String)
  | body (text : String)
deriving DecidableEq, Repr

/-- A candidate echo endpoint: its host name (an entry of `SERVERS`, or
the caller-supplied preferred server) together with the outcome the
network produces for it on this run. -/
structure Endpoint where
  name : String
  outcome : HttpOutcome
deriving DecidableEq, Repr

/-- Why `get_outside_ip` fails: a transport error surfaced by `?` at some
server, or the final `ip.ok_or_else(...)` exhaustion error. -/
inductive ResolveError where
  | transport (server : String) (msg : String)
  | exhausted
deriving DecidableEq, Repr

/-- The `for server_name in servers` loop of `get_outside_ip`
(`network.rs` lines 23-37).  Returns the loop's result together with the
list of servers actually contacted, in order.  A transport error is
propagated immediately by `?`; a body that parses (after `trim`) as an
IPv4 address breaks the loop; an unparseable body falls through to the
next server; an exhausted list yields the `ok_or_else` error. -/
def resolveLoop : List Endpoint → Except ResolveError Ipv4 × List String
  | [] => (Except.error ResolveError.exhausted, [])
  | e :: rest =>
    match e.outcome with
    | HttpOutcome.transportErr m => (Except.error (ResolveError.transport e.name m), [e.name])
    | HttpOutcome.body t =>
      match parseIpv4 (rustTrim t) with
      | some ip => (Except.ok ip, [e.name])
      | none =>
        let r := resolveLoop rest
        (r.1, e.name :: r.2)

/-- `get_outside_ip` (`network.rs` lines 14-38): optionally prepends the
preferred server to the candidate list, then runs the loop.  The
`endpoints` argument carries the `SERVERS` list paired with this run's
network outcomes. -/
def get_outside_ip (endpoints : List Endpoint) (preferred : Option Endpoint) :
    Except ResolveError Ipv4 × List String :=
  match preferred with
  | some p => resolveLoop (p :: endpoints)
  | none => resolveLoop endpoints

/-- The message of the `anyhow` error produced by `get_outside_ip`:
transport errors carry the underlying error's text, exhaustion the fixed
message from `ok_or_else`. -/
def resolveErrorMessage : ResolveError → String
  | ResolveError.transport _ m => m
  | ResolveError.exhausted => "Failed to get outside IP from all servers"

/-- An endpoint that answers (no transport error) with a body that does
not parse as an IPv4 address after trimming. -/
def unparseableBody (e : Endpoint) : Prop :=
  ∃ t, e.outcome = HttpOutcome.body t ∧ parseIpv4 (rustTrim t) = none

/-- Boolean form of `unparseableBody`, for decidability. -/
def unparseableBodyB (e : Endpoint) : Bool :=
  match e.outcome with
  | HttpOutcome.transportErr _ => false
  | HttpOutcome.body t => (parseIpv4 (rustTrim t)).isNone

instance (e : Endpoint) : Decidable (unparseableBody e) :=
  decidable_of_iff (unparseableBodyB e = true) (by
    unfold unparseableBody unparseableBodyB
    cases h : e.outcome <;> simp [Option.isNone_iff_eq_none])

/-- An endpoint that answers with a body that parses (after trimming) as
the address `ip`. -/
def parseableBody (e : Endpoint) (ip : Ipv4) : Prop :=
  ∃ t, e.outcome = HttpOutcome.body t ∧ parseIpv4 (rustTrim t) = some ip

/-! ## `src/config.rs` — the Persisted State

The TOML serialization layer (`toml::to_string_pretty` / `toml::from_str`
over serde derives) is modelled as value-preserving: a file written by
`save` stores the serialized field values, and a file whose text does not
deserialize is represented by the `malformed` constructor.  Timestamps
(`DateTime<Utc>`) are modelled as `Nat`. -/

/-- Modelled from the spec: the `webhook_url` field.  The in-memory
`Config` struct in `config.rs` declares `outside_ip`, `cloudflare_ip`,
`last_updated`, `save_dir` and `file_name`; those five fields are
embedded from that declaration.  `main.rs` additionally reads and writes
`config.webhook_url` (lines 63 and 117), but the field's declaration is
missing from the `config.rs` struct shown; it is included here following
the spec's persisted-state file field list (`outside_ip`,
`cloudflare_ip`, `last_updated`, `save_dir`, `file_name`,
`webhook_url`). -/
structure Config where
  outside_ip : Option Ipv4
  cloudflare_ip : Option Ipv4
  last_updated : Nat
  save_dir : String
  file_name : String
  webhook_url : Option String
deriving DecidableEq, Repr

/-- `Config::default()`: empty IPs, `last_updated = now`, save directory
`/config` under the Docker runtime and `.` otherwise, file name
`cdu.toml`.  The `DOCKER_RUNTIME` environment variable and the clock are
explicit parameters. -/
def Config.defaultConfig (dockerRuntime : Bool) (now : Nat) : Config :=
  { outside_ip := none
    cloudflare_ip := none
    last_updated := now
    save_dir := if dockerRuntime then "/config" else "."
    file_name := "cdu.toml"
    webhook_url := none }

/-- Content of a state file on disk: either text that deserializes to a
`Config` value (the values are stored directly, standing for their TOML
text) or text that fails to parse (e.g. an invalid IP string). -/
inductive FileData where
  | parsable (stored : Config)
  | malformed
deriving DecidableEq, Repr

/-- The file system visible to `config.rs`, restricted to what the code
touches: which directories exist (`config_dir.metadata()`), which are
writable (`fs::File::create` succeeds), and the files keyed by
`(directory, file name)` — the code always addresses the state file as
`save_dir.join(file_name)`, whose parent is `save_dir` in this model. -/
structure FileSystem where
  dirs : List String
  writableDirs : List String
  files : List ((String × String) × FileData)
deriving DecidableEq, Repr

/-- `fs::read_to_string` / `Path::exists` on the state file. -/
def FileSystem.readFile (fs : FileSystem) (dir name : String) : Option FileData :=
  fs.files.lookup (dir, name)

/-- `fs::File::create` + `write_all`, which truncate or create the file. -/
def FileSystem.writeFile (fs : FileSystem) (dir name : String) (data : FileData) :
    FileSystem :=
  { fs with files := ((dir, name), data) :: fs.files }

/-- `Config::load` (`config.rs` lines 67-95): checks the config
directory's metadata (error if the directory is inaccessible), then, if
the file exists, reads and parses it and copies `outside_ip`,
`cloudflare_ip` and `last_updated` — and only those fields — into `self`;
if the file does not exist, leaves `self` untouched and succeeds. -/
def Config.load (self : Config) (fs : FileSystem) : Except String Config :=
  if self.save_dir ∈ fs.dirs then
    match fs.readFile self.save_dir self.file_name with
    | some (FileData.parsable c) =>
      Except.ok { self with
                    outside_ip := c.outside_ip
                    cloudflare_ip := c.cloudflare_ip
                    last_updated := c.last_updated }
    | some FileData.malformed =>
      Except.error ("Failed to parse JSON from file: " ++ self.save_dir ++ "/" ++ self.file_name)
    | none => Except.ok self
  else
    Except.error ("Problem with config directory: " ++ self.save_dir)

/-- `Config::save` (`config.rs` lines 102-123): serializes `self` and
writes it to `save_dir/file_name`; fails when the file cannot be created
(modelled: the directory is not writable). -/
def Config.save (self : Config) (fs : FileSystem) : Except String FileSystem :=
  if self.save_dir ∈ fs.writableDirs then
    Except.ok (fs.writeFile self.save_dir self.file_name (FileData.parsable self))
  else
    Except.error ("Failed to create file: " ++ self.save_dir ++ "/" ++ self.file_name)

/-! ## `src/cloudflare.rs` — the DNS Provider Client -/

/-- `DnsContent` (`cloudflare.rs` lines 59-67), the serde-tagged record
content.  Only the `A` variant's payload (an `Ipv4Addr`) matters to the
program; the other variants' payloads are kept as strings (IPv6 text for
`AAAA`). -/
inductive DnsContent where
  | A (content : Ipv4)
  | AAAA (content : String)
  | CNAME (content : String)
  | NS (content : String)
  | MX (content : String) (priority : Nat)
  | TXT (content : String)
  | SRV (content : String)
deriving DecidableEq, Repr

/-- `DnsRecord` (`cloudflare.rs` lines 70-84), restricted to the fields
the program reads: `name`, `ttl`, `proxied`, `content`, `id`.  The
metadata fields (`meta`, `locked`, `zone_id`, `modified_on`,
`created_on`, `proxiable`, `zone_name`) are deserialized but never read
and are omitted. -/
structure DnsRecord where
  name : String
  ttl : Nat
  proxied : Bool
  content : DnsContent
  id : String
deriving DecidableEq, Repr

/-- `Handler` (`cloudflare.rs` lines 96-101): the bearer-auth client for
one zone, remembering the record found by `get_a_record`.  The HTTP
client and headers are ambient; `try_new`'s only failure mode (an API key
with characters invalid in an HTTP header) is modelled in the
orchestrator's environment. -/
structure Handler where
  zone_id : String
  dns_record : Option DnsRecord
deriving DecidableEq, Repr

/-- The linear scan of `get_a_record`'s `for record in response.result`
loop: the first record whose content is an `A` variant and whose name
equals the domain, together with its address. -/
def findARecord : List DnsRecord → String → Option (DnsRecord × Ipv4)
  | [], _ => none
  | r :: rest, domain =>
    match r.content with
    | DnsContent.A ip =>
      if r.name = domain then some (r, ip) else findARecord rest domain
    | _ => findARecord rest domain

/-- `Handler::get_a_record` (`cloudflare.rs` lines 125-145).
`listResponse` is the outcome of the `GET zones/{zone}/dns_records`
request: a transport/deserialization error, or the zone's record list.
On a hit the record is stored in `dns_record` and its address returned;
otherwise the "not found" error is raised. -/
def get_a_record (h : Handler) (listResponse : Except String (List DnsRecord))
    (domain : String) : Except String (Ipv4 × Handler) :=
  match listResponse with
  | Except.error e => Except.error e
  | Except.ok records =>
    match findARecord records domain with
    | some (r, ip) => Except.ok (ip, { h with dns_record := some r })
    | none => Except.error ("A record for " ++ domain ++ " not found")

/-- The JSON body built by `update_a_record` (`cloudflare.rs` lines
157-163) for the `PUT` request. -/
structure UpdateBody where
  recType : String
  name : String
  content : String
  ttl : Nat
  proxied : Bool
deriving DecidableEq, Repr

/-- `json!({"type": "A", "name": record.name, "content":
new_ip.to_string(), "ttl": 120, "proxied": false})`. -/
def updateRequestBody (record : DnsRecord) (new_ip : Ipv4) : UpdateBody :=
  { recType := "A"
    name := record.name
    content := ipToString new_ip
    ttl := 120
    proxied := false }

/-- Outcome of the `PUT` request issued by `update_a_record`: a transport
failure of `send()`, or an HTTP response with a status code and body
text.  (A failure of `response.text()` is folded into `transportErr`.) -/
inductive PutOutcome where
  | transportErr (msg : String)
  | response (status : Nat) (bodyText : String)
deriving DecidableEq, Repr

/-- `reqwest::StatusCode::is_success`: status in `200..=299`. -/
def statusIsSuccess (s : Nat) : Bool :=
  decide (200 ≤ s ∧ s < 300)

/-- `Handler::update_a_record` (`cloudflare.rs` lines 151-183).  With no
previously fetched record it fails with "No DNS record to update" and
sends nothing.  Otherwise it sends the `PUT` with `updateRequestBody`;
a non-success status fails with the response body text appended to the
error message.  Returns the result together with the body sent (if any),
so that theorems can speak about the request actually issued. -/
def update_a_record (h : Handler) (putOutcome : PutOutcome) (new_ip : Ipv4) :
    Except String Unit × Option UpdateBody :=
  match h.dns_record with
  | some record =>
    let body := updateRequestBody record new_ip
    match putOutcome with
    | PutOutcome.transportErr m => (Except.error m, some body)
    | PutOutcome.response status text =>
      if statusIsSuccess status then
        (Except.ok (), some body)
      else
        (Except.error ("Failed to update A record: " ++ text), some body)
  | none => (Except.error "No DNS record to update", none)

/-! ## `src/webhook.rs` — the Notifier -/

/-- `webhook::send` (`webhook.rs` lines 7-24): POSTs the JSON payload
and returns `Err` only on a transport-level failure (of `send()` or
`text()`); a response with a non-success status is merely logged and
`send` still returns `Ok`.  The result is reported as `Option String`
(`some` = the error message) because the caller only logs it. -/
def webhookSendResult (outcome : PutOutcome) : Option String :=
  match outcome with
  | PutOutcome.transportErr m => some m
  | PutOutcome.response _ _ => none

/-! ## `src/main.rs` — the Orchestrator -/

/-- The overrides `main.rs` applies to the loaded config from the CLI
arguments (lines 56-64): `--config-dir` replaces `save_dir`,
`--webhook` replaces `webhook_url`. -/
def applyCliOverrides (cliConfigDir cliWebhook : Option String) (c : Config) : Config :=
  let c1 := match cliConfigDir with
    | some d => { c with save_dir := d }
    | none => c
  match cliWebhook with
  | some w => { c1 with webhook_url := some w }
  | none => c1

/-- The outcome of a `config.save()` call as `main.rs` observes it:
`none` on success, `some e` on failure — `main.rs` only logs it either
way (lines 84-88 and 111-115). -/
def saveResult (c : Config) (fs : FileSystem) : Option String :=
  match Config.save c fs with
  | Except.ok _ => none
  | Except.error e => some e

/-- The webhook message `main.rs` formats at line 120. -/
def webhookMessage (domain : String) (ip : Ipv4) : String :=
  "Updated A record of " ++ domain ++ " to " ++ ipToString ip

/-- Everything outside the process that one run of `app` observes: the
`.env` load outcome, the `DOCKER_RUNTIME` variable, the clock, the file
system, the CLI arguments, the echo endpoints' behaviour, the provider's
list response, the provider's answer to the update `PUT`, and the
webhook endpoint's behaviour. -/
structure Env where
  dotenvError : Option String
  dockerRuntime : Bool
  now : Nat
  fs : FileSystem
  cliConfigDir : Option String
  cliWebhook : Option String
  dryRun : Bool
  domain : String
  zoneId : String
  apiKeyHeaderError : Option String
  endpoints : List Endpoint
  listRecords : Except String (List DnsRecord)
  putOutcome : PutOutcome
  webhookOutcome : PutOutcome
deriving Repr

/-- The externally visible actions of one run, in order.  `saveConfig`
and `notify` record the swallowed outcome (`none` = success) because the
orchestrator only logs it. -/
inductive Event where
  | resolveIp
  | saveConfig (c : Config) (err : Option String)
  | fetchRecord (domain : String)
  | updateRecord (domain : String) (ip : Ipv4)
  | notify (url : String) (message : String) (err : Option String)
deriving DecidableEq, Repr

/-- `app` (`main.rs` lines 40-129): load `.env`, load the persisted
config into a default one, apply CLI overrides, resolve the outside IP,
short-circuit when it equals the persisted one, otherwise persist it
(failure logged and swallowed), build the Cloudflare handler, fetch the
A record, and if the address differs and this is not a dry run, update
the record, persist again (swallowed) and notify the webhook
(swallowed).  Returns the run's result and its event trace.

The update step at `main.rs` line 107 invokes the handler's record
update (named `set_a_record` at the call site; the fetch-then-update
variant defined in `cloudflare.rs` is `update_a_record`, which the
spec's §9 note fixes as the assumed contract, and which is used here). -/
def app (env : Env) : Except String Unit × List Event :=
  match env.dotenvError with
  | some e => (Except.error e, [])
  | none =>
    match Config.load (Config.defaultConfig env.dockerRuntime env.now) env.fs with
    | Except.error e => (Except.error e, [])
    | Except.ok loaded =>
      let config := applyCliOverrides env.cliConfigDir env.cliWebhook loaded
      match (get_outside_ip env.endpoints none).1 with
      | Except.error e =>
        (Except.error ("Error: " ++ resolveErrorMessage e), [Event.resolveIp])
      | Except.ok outside_ip =>
        if config.outside_ip = some outside_ip then
          (Except.ok (), [Event.resolveIp])
        else
          let config2 := { config with outside_ip := some outside_ip }
          let ev1 := [Event.resolveIp, Event.saveConfig config2 (saveResult config2 env.fs)]
          match env.apiKeyHeaderError with
          | some e => (Except.error e, ev1)
          | none =>
            match get_a_record (Handler.mk env.zoneId none) env.listRecords env.domain with
            | Except.error e => (Except.error e, ev1 ++ [Event.fetchRecord env.domain])
            | Except.ok (cloudflare_ip, handler) =>
              let ev2 := ev1 ++ [Event.fetchRecord env.domain]
              if outside_ip = cloudflare_ip then
                (Except.ok (), ev2)
              else if env.dryRun then
                (Except.ok (), ev2)
              else
                match update_a_record handler env.putOutcome outside_ip with
                | (Except.error e, _) =>
                  (Except.error e, ev2 ++ [Event.updateRecord env.domain outside_ip])
                | (Except.ok _, _) =>
                  let config3 := { config2 with cloudflare_ip := some outside_ip }
                  let ev3 := ev2 ++ [Event.updateRecord env.domain outside_ip,
                                     Event.saveConfig config3 (saveResult config3 env.fs)]
                  match config3.webhook_url with
                  | some url =>
                    (Except.ok (),
                     ev3 ++ [Event.notify url (webhookMessage env.domain outside_ip)
                               (webhookSendResult env.webhookOutcome)])
                  | none => (Except.ok (), ev3)

/-! ### Sample data for concrete runs -/

/-- A network where the first echo endpoint answers `1.2.3.4`. -/
def sampleEndpoints : List Endpoint :=
  [⟨"icanhazip.com", HttpOutcome.body "1.2.3.4"⟩]

/-- A zone with a single A record for `home.example.com` pointing at
`ip`. -/
def sampleRecords (ip : Ipv4) : List DnsRecord :=
  [⟨"home.example.com", 300, false, DnsContent.A ip, "rec1"⟩]

/-- A file system where the current directory exists, is writable, and
holds no state file yet. -/
def sampleFs : FileSystem :=
  ⟨["."], ["."], []⟩

/-- A baseline environment: everything succeeds, the outside IP resolves
to `1.2.3.4`, and the provider currently has `5.6.7.8`. -/
def sampleEnv : Env :=
  { dotenvError := none
    dockerRuntime := false
    now := 0
    fs := sampleFs
    cliConfigDir := none
    cliWebhook := none
    dryRun := false
    domain := "home.example.com"
    zoneId := "z1"
    apiKeyHeaderError := none
    endpoints := sampleEndpoints
    listRecords := Except.ok (sampleRecords ⟨5, 6, 7, 8⟩)
    putOutcome := PutOutcome.response 200 ""
    webhookOutcome := PutOutcome.response 204 "" }

/-! ## Theorems

### The IP Resolver (`network.rs`) -/

/-- Helper: on a list whose every endpoint answers with an unparseable
body, the loop contacts every server in order and ends exhausted. -/
theorem resolveLoop_all_unparseable (l : List Endpoint)
    (h : ∀ e ∈ l, unparseableBody e) :
    resolveLoop l = (Except.error ResolveError.exhausted, l.map Endpoint.name) := by
  induction l with
  | nil => rfl
  | cons e rest ih =>
    obtain ⟨t, ht, hp⟩ := h e (List.mem_cons_self e rest)
    have hrest := ih (fun x hx => h x (List.mem_cons_of_mem e hx))
    simp [resolveLoop, ht, hp, hrest]

/-- Helper: a prefix of unparseable-body endpoints is skipped, then a
parseable endpoint short-circuits the loop. -/
theorem resolveLoop_finds_first (pre : List Endpoint) (e : Endpoint)
    (post : List Endpoint) (ip : Ipv4)
    (hpre : ∀ x ∈ pre, unparseableBody x)
    (he : parseableBody e ip) :
    resolveLoop (pre ++ e :: post) =
      (Except.ok ip, pre.map Endpoint.name ++ [e.name]) := by
  obtain ⟨t, ht, hp⟩ := he
  induction pre with
  | nil => simp [resolveLoop, ht, hp]
  | cons x rest ih =>
    obtain ⟨tx, htx, hpx⟩ := hpre x (List.mem_cons_self x rest)
    have hrest := ih (fun y hy => hpre y (List.mem_cons_of_mem x hy))
    simp [resolveLoop, htx, hpx, hrest]

/-- C2 counterexample: a two-endpoint list in which the first endpoint
fails at transport level and the second returns unparseable content —
so every endpoint "either errors or returns unparseable content" as the
claim requires — yet `get_outside_ip` surfaces the transport error
immediately (the `?` on `send()`), consults only the first entry, and
does not produce the resolution-exhausted error. -/
theorem resolver_transport_error_not_exhaustion_cex :
    get_outside_ip
        [⟨"icanhazip.com", HttpOutcome.transportErr "connection refused"⟩,
         ⟨"wtfismyip.com", HttpOutcome.body "not an ip"⟩] none =
      (Except.error (ResolveError.transport "icanhazip.com" "connection refused"),
       ["icanhazip.com"]) ∧
    (get_outside_ip
        [⟨"icanhazip.com", HttpOutcome.transportErr "connection refused"⟩,
         ⟨"wtfismyip.com", HttpOutcome.body "not an ip"⟩] none).1 ≠
      Except.error ResolveError.exhausted ∧
    (get_outside_ip
        [⟨"icanhazip.com", HttpOutcome.transportErr "connection refused"⟩,
         ⟨"wtfismyip.com", HttpOutcome.body "not an ip"⟩] none).2 ≠
      ["icanhazip.com", "wtfismyip.com"] := by
  refine ⟨rfl, ?_, ?_⟩ <;> simp [get_outside_ip, resolveLoop]

/-- C2 (amended): for every candidate endpoint list in which every
endpoint responds without transport error but with content that does not
parse as a bare IPv4 address, the Resolver consults every entry exactly
once, in order, and then fails with the resolution-exhausted error. -/
theorem resolver_exhausts_all_unparseable (l : List Endpoint)
    (h : ∀ e ∈ l, unparseableBody e) :
    get_outside_ip l none =
      (Except.error ResolveError.exhausted, l.map Endpoint.name) := by
  unfold get_outside_ip
  exact resolveLoop_all_unparseable l h

/-- C2 witness: a concrete two-endpoint list of unparseable bodies is
exhausted after consulting both servers once. -/
theorem resolver_exhausts_all_unparseable_witness :
    (∀ e ∈ [(⟨"icanhazip.com", HttpOutcome.body "hello"⟩ : Endpoint),
            ⟨"wtfismyip.com", HttpOutcome.body "1.2.3.999"⟩], unparseableBody e) ∧
    get_outside_ip
        [⟨"icanhazip.com", HttpOutcome.body "hello"⟩,
         ⟨"wtfismyip.com", HttpOutcome.body "1.2.3.999"⟩] none =
      (Except.error ResolveError.exhausted, ["icanhazip.com", "wtfismyip.com"]) :=
  ⟨by decide,
   resolver_exhausts_all_unparseable
     [⟨"icanhazip.com", HttpOutcome.body "hello"⟩,
      ⟨"wtfismyip.com", HttpOutcome.body "1.2.3.999"⟩] (by decide)⟩

/-- C5 counterexample: a list whose second endpoint returns a valid bare
IPv4 body (so "at least one entry returns a parseable address") but whose
first endpoint fails at transport level: the claim requires the Resolver
to return `1.2.3.4`, yet `get_outside_ip` aborts with the first
endpoint's transport error and never reaches the parseable entry. -/
theorem resolver_transport_error_blocks_short_circuit_cex :
    get_outside_ip
        [⟨"icanhazip.com", HttpOutcome.transportErr "timeout"⟩,
         ⟨"wtfismyip.com", HttpOutcome.body "1.2.3.4"⟩] none =
      (Except.error (ResolveError.transport "icanhazip.com" "timeout"),
       ["icanhazip.com"]) ∧
    parseableBody ⟨"wtfismyip.com", HttpOutcome.body "1.2.3.4"⟩ ⟨1, 2, 3, 4⟩ ∧
    (get_outside_ip
        [⟨"icanhazip.com", HttpOutcome.transportErr "timeout"⟩,
         ⟨"wtfismyip.com", HttpOutcome.body "1.2.3.4"⟩] none).1 ≠
      Except.ok ⟨1, 2, 3, 4⟩ := by
  refine ⟨rfl, ⟨"1.2.3.4", rfl, by decide⟩, ?_⟩
  simp [get_outside_ip, resolveLoop]

/-- C5 (amended): for every candidate endpoint list that splits as
`pre ++ e :: post` where every endpoint of `pre` responds without
transport error but with an unparseable body, and `e`'s body parses
(after trimming) as the address `ip`, the Resolver returns `ip` — the
address of the first parseable entry — and consults only `pre`'s entries
and `e`, never any endpoint after `e`. -/
theorem resolver_first_parseable_short_circuit (pre : List Endpoint)
    (e : Endpoint) (post : List Endpoint) (ip : Ipv4)
    (hpre : ∀ x ∈ pre, unparseableBody x)
    (he : parseableBody e ip) :
    get_outside_ip (pre ++ e :: post) none =
      (Except.ok ip, pre.map Endpoint.name ++ [e.name]) := by
  unfold get_outside_ip
  exact resolveLoop_finds_first pre e post ip hpre he

/-- C5 witness: with one unparseable body before it and one endpoint
after it, a whitespace-padded IPv4 body is returned (trimmed and parsed)
and the endpoint after it is not consulted. -/
theorem resolver_first_parseable_short_circuit_witness :
    (∀ x ∈ [(⟨"icanhazip.com", HttpOutcome.body "<html>"⟩ : Endpoint)],
      unparseableBody x) ∧
    parseableBody ⟨"wtfismyip.com", HttpOutcome.body " 93.184.216.34 \n"⟩
      ⟨93, 184, 216, 34⟩ ∧
    get_outside_ip
        [⟨"icanhazip.com", HttpOutcome.body "<html>"⟩,
         ⟨"wtfismyip.com", HttpOutcome.body " 93.184.216.34 \n"⟩,
         ⟨"da.gd", HttpOutcome.body "9.9.9.9"⟩] none =
      (Except.ok ⟨93, 184, 216, 34⟩, ["icanhazip.com", "wtfismyip.com"]) :=
  ⟨by decide,
   ⟨" 93.184.216.34 \n", rfl, by decide⟩,
   resolver_first_parseable_short_circuit
     [⟨"icanhazip.com", HttpOutcome.body "<html>"⟩]
     ⟨"wtfismyip.com", HttpOutcome.body " 93.184.216.34 \n"⟩
     [⟨"da.gd", HttpOutcome.body "9.9.9.9"⟩]
     ⟨93, 184, 216, 34⟩ (by decide)
     ⟨" 93.184.216.34 \n", rfl, by decide⟩⟩

/-! ### The Persisted State (`config.rs`) -/

/-- Helper: reading back the file just written yields its data. -/
theorem readFile_writeFile_same (fs : FileSystem) (d n : String) (data : FileData) :
    (fs.writeFile d n data).readFile d n = some data := by
  simp [FileSystem.readFile, FileSystem.writeFile, List.lookup]

/-- C4 counterexample: a config whose `save_dir` names a directory that
does not exist.  No file exists at the configured state-file path, yet
`load()` fails: `config.rs` checks the config directory's metadata
(lines 73-76) before looking for the file, so a missing directory is an
error, not a first-run condition. -/
theorem config_load_missing_dir_fails_cex :
    (FileSystem.readFile ⟨[], [], []⟩ "." "cdu.toml" = none) ∧
    Config.load (Config.defaultConfig false 0) ⟨[], [], []⟩ =
      Except.error "Problem with config directory: ." := by
  constructor
  · rfl
  · rfl

/-- C4 (amended): for every configured state-file path whose directory
exists but at which no file exists, `load()` returns success and leaves
the in-memory state unchanged (first-run condition, not an error). -/
theorem config_load_absent_file_keeps_defaults (c : Config) (fs : FileSystem)
    (hdir : c.save_dir ∈ fs.dirs)
    (habsent : fs.readFile c.save_dir c.file_name = none) :
    Config.load c fs = Except.ok c := by
  unfold Config.load
  simp [hdir, habsent]

/-- C4 witness: the default config against a file system holding an
empty existing current directory. -/
theorem config_load_absent_file_keeps_defaults_witness :
    ("." : String) ∈ (⟨["."], ["."], []⟩ : FileSystem).dirs ∧
    (FileSystem.readFile ⟨["."], ["."], []⟩ "." "cdu.toml" = none) ∧
    Config.load (Config.defaultConfig false 7) ⟨["."], ["."], []⟩ =
      Except.ok (Config.defaultConfig false 7) :=
  ⟨by decide, rfl,
   config_load_absent_file_keeps_defaults (Config.defaultConfig false 7)
     ⟨["."], ["."], []⟩ (by decide) rfl⟩

/-- C3 counterexample: a state whose `webhook_url` is set is saved, and a
fresh default state configured with the same directory and file name
loads it back — but the loaded state's `webhook_url` is `none`, because
`Config::load` (lines 86-88) copies only `outside_ip`, `cloudflare_ip`
and `last_updated` out of the parsed file.  The round trip is not exact
on all fields of the spec's persisted-state data model. -/
theorem config_roundtrip_drops_webhook_cex :
    Config.save
        ⟨some ⟨1, 2, 3, 4⟩, some ⟨5, 6, 7, 8⟩, 42, ".", "cdu.toml",
         some "https://example.com/hook"⟩ ⟨["."], ["."], []⟩ =
      Except.ok
        (FileSystem.writeFile ⟨["."], ["."], []⟩ "." "cdu.toml"
          (FileData.parsable
            ⟨some ⟨1, 2, 3, 4⟩, some ⟨5, 6, 7, 8⟩, 42, ".", "cdu.toml",
             some "https://example.com/hook"⟩)) ∧
    Config.load (Config.defaultConfig false 0)
        (FileSystem.writeFile ⟨["."], ["."], []⟩ "." "cdu.toml"
          (FileData.parsable
            ⟨some ⟨1, 2, 3, 4⟩, some ⟨5, 6, 7, 8⟩, 42, ".", "cdu.toml",
             some "https://example.com/hook"⟩)) =
      Except.ok ⟨some ⟨1, 2, 3, 4⟩, some ⟨5, 6, 7, 8⟩, 42, ".", "cdu.toml", none⟩ ∧
    (none : Option String) ≠ some "https://example.com/hook" := by
  refine ⟨rfl, rfl, by decide⟩

/-- C3 (amended): saving a state and loading on a fresh state configured
with the same directory and file name round-trips `outside_ip`,
`cloudflare_ip` and `last_updated` exactly, and `save_dir` and
`file_name` agree by configuration — but `webhook_url` is not restored:
the loaded state keeps the fresh state's `webhook_url`. -/
theorem config_save_load_roundtrip_core_fields (c fresh : Config)
    (fs fs' : FileSystem)
    (hsave : Config.save c fs = Except.ok fs')
    (hdir : c.save_dir ∈ fs.dirs)
    (hd : fresh.save_dir = c.save_dir)
    (hf : fresh.file_name = c.file_name) :
    ∃ loaded, Config.load fresh fs' = Except.ok loaded ∧
      loaded.outside_ip = c.outside_ip ∧
      loaded.cloudflare_ip = c.cloudflare_ip ∧
      loaded.last_updated = c.last_updated ∧
      loaded.save_dir = c.save_dir ∧
      loaded.file_name = c.file_name ∧
      loaded.webhook_url = fresh.webhook_url := by
  unfold Config.save at hsave
  by_cases hw : c.save_dir ∈ fs.writableDirs
  · simp only [hw, if_true, Except.ok.injEq] at hsave
    subst hsave
    refine ⟨{ fresh with
                outside_ip := c.outside_ip
                cloudflare_ip := c.cloudflare_ip
                last_updated := c.last_updated }, ?_, rfl, rfl, rfl, hd, hf, rfl⟩
    unfold Config.load
    rw [hd, hf]
    have hdirs : c.save_dir ∈ (fs.writeFile c.save_dir c.file_name
        (FileData.parsable c)).dirs := hdir
    simp [hdirs, readFile_writeFile_same]
  · simp [hw] at hsave

/-- C3 witness: a concrete saved state with all fields set round-trips
its IP fields and timestamp into a fresh default state, which keeps its
own (empty) `webhook_url`. -/
theorem config_save_load_roundtrip_core_fields_witness :
    Config.save ⟨some ⟨10, 0, 0, 1⟩, none, 99, ".", "cdu.toml", some "u"⟩
        ⟨["."], ["."], []⟩ =
      Except.ok
        (FileSystem.writeFile ⟨["."], ["."], []⟩ "." "cdu.toml"
          (FileData.parsable ⟨some ⟨10, 0, 0, 1⟩, none, 99, ".", "cdu.toml", some "u"⟩)) ∧
    ∃ loaded,
      Config.load (Config.defaultConfig false 3)
          (FileSystem.writeFile ⟨["."], ["."], []⟩ "." "cdu.toml"
            (FileData.parsable ⟨some ⟨10, 0, 0, 1⟩, none, 99, ".", "cdu.toml", some "u"⟩)) =
        Except.ok loaded ∧
      loaded.outside_ip = some ⟨10, 0, 0, 1⟩ ∧
      loaded.cloudflare_ip = none ∧
      loaded.last_updated = 99 ∧
      loaded.save_dir = "." ∧
      loaded.file_name = "cdu.toml" ∧
      loaded.webhook_url = (Config.defaultConfig false 3).webhook_url :=
  ⟨rfl,
   config_save_load_roundtrip_core_fields
     ⟨some ⟨10, 0, 0, 1⟩, none, 99, ".", "cdu.toml", some "u"⟩
     (Config.defaultConfig false 3) ⟨["."], ["."], []⟩
     (FileSystem.writeFile ⟨["."], ["."], []⟩ "." "cdu.toml"
       (FileData.parsable ⟨some ⟨10, 0, 0, 1⟩, none, 99, ".", "cdu.toml", some "u"⟩))
     rfl (by decide) rfl rfl⟩

/-! ### The DNS Provider Client (`cloudflare.rs`) -/

/-- Helper: a hit of the linear scan is an `A` record whose name equals
the requested domain. -/
theorem findARecord_ok (records : List DnsRecord) (domain : String)
    (r : DnsRecord) (ip : Ipv4)
    (h : findARecord records domain = some (r, ip)) :
    r.name = domain ∧ r.content = DnsContent.A ip := by
  induction records with
  | nil => simp [findARecord] at h
  | cons x rest ih =>
    cases hc : x.content with
    | A ipx =>
      by_cases hn : x.name = domain
      · obtain ⟨h1, h2⟩ : x = r ∧ ipx = ip := by
          simpa [findARecord, hc, hn] using h
        subst h1
        subst h2
        exact ⟨hn, hc⟩
      · exact ih (by simpa [findARecord, hc, hn] using h)
    | AAAA s => exact ih (by simpa [findARecord, hc] using h)
    | CNAME s => exact ih (by simpa [findARecord, hc] using h)
    | NS s => exact ih (by simpa [findARecord, hc] using h)
    | MX s p => exact ih (by simpa [findARecord, hc] using h)
    | TXT s => exact ih (by simpa [findARecord, hc] using h)
    | SRV s => exact ih (by simpa [findARecord, hc] using h)

/-- Helper: a successful `get_a_record` stores in `dns_record` an `A`
record whose name is the requested domain, holding the returned
address. -/
theorem get_a_record_ok (h : Handler) (resp : Except String (List DnsRecord))
    (domain : String) (ip : Ipv4) (h' : Handler)
    (hok : get_a_record h resp domain = Except.ok (ip, h')) :
    ∃ r, h'.dns_record = some r ∧ r.name = domain ∧
      r.content = DnsContent.A ip := by
  cases resp with
  | error e => simp [get_a_record] at hok
  | ok records =>
    cases hf : findARecord records domain with
    | none => simp [get_a_record, hf] at hok
    | some pair =>
      obtain ⟨r, ipr⟩ := pair
      obtain ⟨hip, hh⟩ : ipr = ip ∧ { h with dns_record := some r } = h' := by
        simpa [get_a_record, hf] using hok
      subst hip
      obtain ⟨hname, hcontent⟩ := findARecord_ok records domain r ipr hf
      exact ⟨r, by rw [← hh], hname, hcontent⟩

/-- C9: whenever `get_a_record domain` succeeds, the handler's
`dns_record` is `some` record whose name equals the requested domain,
and therefore every subsequent `update_a_record` on that handler issues
an update request (its sent body is `some`) — the "No DNS record to
update" branch, which sends nothing, is unreachable after a successful
fetch. -/
theorem fetch_then_update_never_missing_record (h : Handler)
    (resp : Except String (List DnsRecord)) (domain : String) (ip : Ipv4)
    (h' : Handler)
    (hok : get_a_record h resp domain = Except.ok (ip, h')) :
    ∃ r, h'.dns_record = some r ∧ r.name = domain ∧
      ∀ po nip, (update_a_record h' po nip).2 = some (updateRequestBody r nip) := by
  obtain ⟨r, hrec, hname, _⟩ := get_a_record_ok h resp domain ip h' hok
  refine ⟨r, hrec, hname, fun po nip => ?_⟩
  unfold update_a_record
  rw [hrec]
  cases po with
  | transportErr m => rfl
  | response status text =>
    by_cases hs : statusIsSuccess status
    · simp [hs]
    · simp [hs]

/-- C9 witness: fetching `home.example.com` from a one-record zone
stores the record, and an update afterwards sends a request body. -/
theorem fetch_then_update_never_missing_record_witness :
    get_a_record ⟨"zone1", none⟩
        (Except.ok [⟨"home.example.com", 300, true, DnsContent.A ⟨1, 2, 3, 4⟩, "rec1"⟩])
        "home.example.com" =
      Except.ok (⟨1, 2, 3, 4⟩,
        ⟨"zone1", some ⟨"home.example.com", 300, true, DnsContent.A ⟨1, 2, 3, 4⟩, "rec1"⟩⟩) ∧
    ∃ r, (⟨"zone1", some ⟨"home.example.com", 300, true, DnsContent.A ⟨1, 2, 3, 4⟩, "rec1"⟩⟩ :
            Handler).dns_record = some r ∧
      r.name = "home.example.com" ∧
      ∀ po nip, (update_a_record
          ⟨"zone1", some ⟨"home.example.com", 300, true, DnsContent.A ⟨1, 2, 3, 4⟩, "rec1"⟩⟩
          po nip).2 = some (updateRequestBody r nip) :=
  ⟨rfl,
   fetch_then_update_never_missing_record ⟨"zone1", none⟩
     (Except.ok [⟨"home.example.com", 300, true, DnsContent.A ⟨1, 2, 3, 4⟩, "rec1"⟩])
     "home.example.com" ⟨1, 2, 3, 4⟩
     ⟨"zone1", some ⟨"home.example.com", 300, true, DnsContent.A ⟨1, 2, 3, 4⟩, "rec1"⟩⟩
     rfl⟩

/-- C10: every update request body sent by `update_a_record` has record
type `"A"`, ttl `120` and proxied `false`, and carries the new address —
regardless of the ttl and proxied values of the previously fetched
record, which are overwritten. -/
theorem update_body_fixed_type_ttl_proxied (h : Handler) (po : PutOutcome)
    (nip : Ipv4) (b : UpdateBody)
    (hsent : (update_a_record h po nip).2 = some b) :
    b.recType = "A" ∧ b.ttl = 120 ∧ b.proxied = false ∧
    b.content = ipToString nip ∧
    ∃ r, h.dns_record = some r ∧ b.name = r.name := by
  unfold update_a_record at hsent
  cases hrec : h.dns_record with
  | none => rw [hrec] at hsent; simp at hsent
  | some r =>
    rw [hrec] at hsent
    have hb : b = updateRequestBody r nip := by
      cases po with
      | transportErr m =>
        simpa using hsent.symm
      | response status text =>
        by_cases hs : statusIsSuccess status
        · simp [hs] at hsent
          exact hsent.symm
        · simp [hs] at hsent
          exact hsent.symm
    subst hb
    exact ⟨rfl, rfl, rfl, rfl, r, rfl, rfl⟩

/-- C10 witness: a fetched record with ttl 3600 and proxied true still
produces an update body with type "A", ttl 120 and proxied false. -/
theorem update_body_fixed_type_ttl_proxied_witness :
    (update_a_record
        ⟨"zone1", some ⟨"home.example.com", 3600, true, DnsContent.A ⟨1, 2, 3, 4⟩, "rec1"⟩⟩
        (PutOutcome.response 200 "ok") ⟨5, 6, 7, 8⟩).2 =
      some ⟨"A", "home.example.com", "5.6.7.8", 120, false⟩ ∧
    ("A" : String) = "A" ∧ (120 : Nat) = 120 ∧ (false : Bool) = false ∧
    ("5.6.7.8" : String) = ipToString ⟨5, 6, 7, 8⟩ ∧
    ∃ r, (⟨"zone1", some ⟨"home.example.com", 3600, true, DnsContent.A ⟨1, 2, 3, 4⟩, "rec1"⟩⟩ :
            Handler).dns_record = some r ∧ ("home.example.com" : String) = r.name := by
  have h := update_body_fixed_type_ttl_proxied
    ⟨"zone1", some ⟨"home.example.com", 3600, true, DnsContent.A ⟨1, 2, 3, 4⟩, "rec1"⟩⟩
    (PutOutcome.response 200 "ok") ⟨5, 6, 7, 8⟩
    ⟨"A", "home.example.com", "5.6.7.8", 120, false⟩ rfl
  exact ⟨rfl, h.1, h.2.1, h.2.2.1, h.2.2.2.1.symm ▸ rfl, h.2.2.2.2⟩

/-! ### The Orchestrator (`main.rs`) -/

/-- Helper: the CLI overrides touch only `save_dir` and `webhook_url`,
never `cloudflare_ip`. -/
theorem applyCliOverrides_cloudflare_ip (a w : Option String) (c : Config) :
    (applyCliOverrides a w c).cloudflare_ip = c.cloudflare_ip := by
  unfold applyCliOverrides
  cases a <;> cases w <;> rfl

/-- Helper: a run that short-circuits (the resolved outside IP equals the
persisted one) is exactly a resolve followed by a successful exit. -/
theorem app_short_circuit_eq (env : Env) (c0 : Config) (ip : Ipv4)
    (hdot : env.dotenvError = none)
    (hload : Config.load (Config.defaultConfig env.dockerRuntime env.now) env.fs =
      Except.ok c0)
    (hres : (get_outside_ip env.endpoints none).1 = Except.ok ip)
    (hsame : (applyCliOverrides env.cliConfigDir env.cliWebhook c0).outside_ip = some ip) :
    app env = (Except.ok (), [Event.resolveIp]) := by
  unfold app
  simp only [hdot, hload, hres, hsame, if_true]

/-- C6: in every run whose freshly resolved outside IP equals the
persisted outside IP, the Orchestrator performs no provider record fetch
and no update call and terminates successfully. -/
theorem short_circuit_no_fetch_no_update (env : Env) (c0 : Config) (ip : Ipv4)
    (hdot : env.dotenvError = none)
    (hload : Config.load (Config.defaultConfig env.dockerRuntime env.now) env.fs =
      Except.ok c0)
    (hres : (get_outside_ip env.endpoints none).1 = Except.ok ip)
    (hsame : (applyCliOverrides env.cliConfigDir env.cliWebhook c0).outside_ip = some ip) :
    (app env).1 = Except.ok () ∧
    (∀ d, Event.fetchRecord d ∉ (app env).2) ∧
    (∀ d i, Event.updateRecord d i ∉ (app env).2) := by
  have happ := app_short_circuit_eq env c0 ip hdot hload hres hsame
  rw [happ]
  refine ⟨rfl, ?_, ?_⟩ <;> simp

/-- C6 witness: a run whose persisted state already holds the resolved
address `1.2.3.4` exits successfully after the resolve alone. -/
theorem short_circuit_no_fetch_no_update_witness :
    ({ sampleEnv with
        fs := ⟨["."], ["."],
          [((".", "cdu.toml"),
            FileData.parsable ⟨some ⟨1, 2, 3, 4⟩, none, 5, ".", "cdu.toml", none⟩)]⟩ } :
      Env).dotenvError = none ∧
    Config.load (Config.defaultConfig false 0)
        ⟨["."], ["."],
         [((".", "cdu.toml"),
           FileData.parsable ⟨some ⟨1, 2, 3, 4⟩, none, 5, ".", "cdu.toml", none⟩)]⟩ =
      Except.ok ⟨some ⟨1, 2, 3, 4⟩, none, 5, ".", "cdu.toml", none⟩ ∧
    (get_outside_ip sampleEndpoints none).1 = Except.ok ⟨1, 2, 3, 4⟩ ∧
    ((app { sampleEnv with
        fs := ⟨["."], ["."],
          [((".", "cdu.toml"),
            FileData.parsable ⟨some ⟨1, 2, 3, 4⟩, none, 5, ".", "cdu.toml", none⟩)]⟩ }).1 =
      Except.ok () ∧
    (∀ d, Event.fetchRecord d ∉
      (app { sampleEnv with
        fs := ⟨["."], ["."],
          [((".", "cdu.toml"),
            FileData.parsable ⟨some ⟨1, 2, 3, 4⟩, none, 5, ".", "cdu.toml", none⟩)]⟩ }).2) ∧
    (∀ d i, Event.updateRecord d i ∉
      (app { sampleEnv with
        fs := ⟨["."], ["."],
          [((".", "cdu.toml"),
            FileData.parsable ⟨some ⟨1, 2, 3, 4⟩, none, 5, ".", "cdu.toml", none⟩)]⟩ }).2)) :=
  ⟨rfl, rfl, rfl,
   short_circuit_no_fetch_no_update _
     ⟨some ⟨1, 2, 3, 4⟩, none, 5, ".", "cdu.toml", none⟩ ⟨1, 2, 3, 4⟩
     rfl rfl rfl rfl⟩

/-- C7: every dry-run performs no update call, sends no webhook
notification, and every state save it attempts writes a config whose
`cloudflare_ip` equals the loaded one — the persisted `cloudflare_ip` is
left unchanged.  (This covers in particular the runs where the resolved
outside IP differs from the provider's current A-record content: the
`UpdateRecord`/`PersistProvider`/`Notify` steps are skipped.) -/
theorem dry_run_issues_no_update (env : Env) (c0 : Config)
    (hdot : env.dotenvError = none)
    (hload : Config.load (Config.defaultConfig env.dockerRuntime env.now) env.fs =
      Except.ok c0)
    (hdry : env.dryRun = true) :
    (∀ d i, Event.updateRecord d i ∉ (app env).2) ∧
    (∀ u m r, Event.notify u m r ∉ (app env).2) ∧
    (∀ c r, Event.saveConfig c r ∈ (app env).2 → c.cloudflare_ip = c0.cloudflare_ip) := by
  have hover := applyCliOverrides_cloudflare_ip env.cliConfigDir env.cliWebhook c0
  unfold app
  simp only [hdot, hload]
  cases hres : (get_outside_ip env.endpoints none).1 with
  | error e => simp
  | ok ip =>
    by_cases hsc : (applyCliOverrides env.cliConfigDir env.cliWebhook c0).outside_ip = some ip
    · simp [hsc]
    · simp only [if_neg hsc]
      cases hapi : env.apiKeyHeaderError with
      | some e => refine ⟨?_, ?_, ?_⟩ <;> simp [hover]
      | none =>
        cases hfetch : get_a_record ⟨env.zoneId, none⟩ env.listRecords env.domain with
        | error e => refine ⟨?_, ?_, ?_⟩ <;> simp [hover]
        | ok pair =>
          obtain ⟨cfIp, handler⟩ := pair
          by_cases hip : ip = cfIp
          · simp only [if_pos hip]
            refine ⟨?_, ?_, ?_⟩ <;> simp [hover]
          · simp only [if_neg hip, hdry, if_true]
            refine ⟨?_, ?_, ?_⟩ <;> simp [hover]

/-- C7 witness: a dry run over the baseline environment (resolved
`1.2.3.4`, provider record `5.6.7.8`) issues no update, no notification,
and saves only configs with the loaded (empty) `cloudflare_ip`. -/
theorem dry_run_issues_no_update_witness :
    ({ sampleEnv with dryRun := true } : Env).dotenvError = none ∧
    Config.load (Config.defaultConfig false 0) sampleFs =
      Except.ok (Config.defaultConfig false 0) ∧
    ({ sampleEnv with dryRun := true } : Env).dryRun = true ∧
    ((∀ d i, Event.updateRecord d i ∉ (app { sampleEnv with dryRun := true }).2) ∧
     (∀ u m r, Event.notify u m r ∉ (app { sampleEnv with dryRun := true }).2) ∧
     (∀ c r, Event.saveConfig c r ∈ (app { sampleEnv with dryRun := true }).2 →
       c.cloudflare_ip = (Config.defaultConfig false 0).cloudflare_ip)) :=
  ⟨rfl, rfl, rfl,
   dry_run_issues_no_update { sampleEnv with dryRun := true }
     (Config.defaultConfig false 0) rfl rfl rfl⟩

/-- C8: when the run reaches the update call and the provider answers it
with a non-success (non-2xx) status, the record update fails with an
error message containing the provider's response body text, and the run
aborts with exactly that error. -/
theorem update_non_success_aborts_run (env : Env) (c0 : Config) (ip cfIp : Ipv4)
    (handler : Handler) (status : Nat) (text : String)
    (hdot : env.dotenvError = none)
    (hload : Config.load (Config.defaultConfig env.dockerRuntime env.now) env.fs =
      Except.ok c0)
    (hres : (get_outside_ip env.endpoints none).1 = Except.ok ip)
    (hne : (applyCliOverrides env.cliConfigDir env.cliWebhook c0).outside_ip ≠ some ip)
    (hapi : env.apiKeyHeaderError = none)
    (hfetch : get_a_record ⟨env.zoneId, none⟩ env.listRecords env.domain =
      Except.ok (cfIp, handler))
    (hip : ip ≠ cfIp)
    (hdry : env.dryRun = false)
    (hput : env.putOutcome = PutOutcome.response status text)
    (hstatus : statusIsSuccess status = false) :
    (app env).1 = Except.error ("Failed to update A record: " ++ text) ∧
    ∃ pre, "Failed to update A record: " ++ text = pre ++ text := by
  obtain ⟨r, hrec, -, -⟩ := get_a_record_ok ⟨env.zoneId, none⟩ env.listRecords
    env.domain cfIp handler hfetch
  have hupd : update_a_record handler env.putOutcome ip =
      (Except.error ("Failed to update A record: " ++ text),
       some (updateRequestBody r ip)) := by
    unfold update_a_record
    rw [hrec, hput]
    simp [hstatus]
  refine ⟨?_, "Failed to update A record: ", rfl⟩
  unfold app
  simp only [hdot, hload, hres, if_neg hne, hapi, hfetch, if_neg hip, hdry,
    Bool.false_eq_true, if_false, hupd]

/-- C8 witness: the provider answers the update `PUT` with status 400 and
body "bad things"; the run aborts with an error carrying that body. -/
theorem update_non_success_aborts_run_witness :
    (get_outside_ip sampleEndpoints none).1 = Except.ok ⟨1, 2, 3, 4⟩ ∧
    (applyCliOverrides none none (Config.defaultConfig false 0)).outside_ip ≠
      some ⟨1, 2, 3, 4⟩ ∧
    get_a_record ⟨"z1", none⟩ (Except.ok (sampleRecords ⟨5, 6, 7, 8⟩))
        "home.example.com" =
      Except.ok (⟨5, 6, 7, 8⟩,
        ⟨"z1", some ⟨"home.example.com", 300, false, DnsContent.A ⟨5, 6, 7, 8⟩, "rec1"⟩⟩) ∧
    (⟨1, 2, 3, 4⟩ : Ipv4) ≠ ⟨5, 6, 7, 8⟩ ∧
    statusIsSuccess 400 = false ∧
    ((app { sampleEnv with putOutcome := PutOutcome.response 400 "bad things" }).1 =
        Except.error ("Failed to update A record: " ++ "bad things") ∧
      ∃ pre, "Failed to update A record: " ++ "bad things" = pre ++ "bad things") :=
  ⟨rfl, by decide, rfl, by decide, by decide,
   update_non_success_aborts_run
     { sampleEnv with putOutcome := PutOutcome.response 400 "bad things" }
     (Config.defaultConfig false 0) ⟨1, 2, 3, 4⟩ ⟨5, 6, 7, 8⟩
     ⟨"z1", some ⟨"home.example.com", 300, false, DnsContent.A ⟨5, 6, 7, 8⟩, "rec1"⟩⟩
     400 "bad things"
     rfl rfl rfl (by decide) rfl rfl (by decide) rfl rfl (by decide)⟩

/-- Helper: the run's result is unchanged under making every directory
unwritable (every `save()` fails) and changing the webhook endpoint's
behaviour — `main.rs` only logs these two outcomes. -/
theorem app_result_ignores_save_notify (env : Env) (W : List String) (w : PutOutcome) :
    (app { env with fs := { env.fs with writableDirs := W }, webhookOutcome := w }).1 =
      (app env).1 := by
  have hl : Config.load (Config.defaultConfig env.dockerRuntime env.now)
      { env.fs with writableDirs := W } =
      Config.load (Config.defaultConfig env.dockerRuntime env.now) env.fs := rfl
  unfold app
  simp only [hl]
  repeat' split <;> try simp_all

/-- Helper: a failing state load aborts the run with its error. -/
theorem app_load_error_aborts (env : Env) (e : String)
    (hdot : env.dotenvError = none)
    (hload : Config.load (Config.defaultConfig env.dockerRuntime env.now) env.fs =
      Except.error e) :
    (app env).1 = Except.error e := by
  unfold app
  simp only [hdot, hload]

/-- Helper: a failing IP resolution aborts the run with the `bail!`
message wrapping the resolver's error. -/
theorem app_resolve_error_aborts (env : Env) (c0 : Config) (re : ResolveError)
    (hdot : env.dotenvError = none)
    (hload : Config.load (Config.defaultConfig env.dockerRuntime env.now) env.fs =
      Except.ok c0)
    (hres : (get_outside_ip env.endpoints none).1 = Except.error re) :
    (app env).1 = Except.error ("Error: " ++ resolveErrorMessage re) := by
  unfold app
  simp only [hdot, hload, hres]

/-- Helper: a failing record fetch aborts the run with its error. -/
theorem app_fetch_error_aborts (env : Env) (c0 : Config) (ip : Ipv4) (e : String)
    (hdot : env.dotenvError = none)
    (hload : Config.load (Config.defaultConfig env.dockerRuntime env.now) env.fs =
      Except.ok c0)
    (hres : (get_outside_ip env.endpoints none).1 = Except.ok ip)
    (hne : (applyCliOverrides env.cliConfigDir env.cliWebhook c0).outside_ip ≠ some ip)
    (hapi : env.apiKeyHeaderError = none)
    (hfetch : get_a_record ⟨env.zoneId, none⟩ env.listRecords env.domain =
      Except.error e) :
    (app env).1 = Except.error e := by
  unfold app
  simp only [hdot, hload, hres, if_neg hne, hapi, hfetch]

/-- Helper: a failing record update (transport failure or provider
error) aborts the run with its error. -/
theorem app_update_error_aborts (env : Env) (c0 : Config) (ip cfIp : Ipv4)
    (handler : Handler) (e : String) (b : Option UpdateBody)
    (hdot : env.dotenvError = none)
    (hload : Config.load (Config.defaultConfig env.dockerRuntime env.now) env.fs =
      Except.ok c0)
    (hres : (get_outside_ip env.endpoints none).1 = Except.ok ip)
    (hne : (applyCliOverrides env.cliConfigDir env.cliWebhook c0).outside_ip ≠ some ip)
    (hapi : env.apiKeyHeaderError = none)
    (hfetch : get_a_record ⟨env.zoneId, none⟩ env.listRecords env.domain =
      Except.ok (cfIp, handler))
    (hip : ip ≠ cfIp)
    (hdry : env.dryRun = false)
    (hupd : update_a_record handler env.putOutcome ip = (Except.error e, b)) :
    (app env).1 = Except.error e := by
  unfold app
  simp only [hdot, hload, hres, if_neg hne, hapi, hfetch, if_neg hip, hdry,
    Bool.false_eq_true, if_false, hupd]

/-- C1 counterexample: a run in which `config.save()` fails (the config
directory exists but is not writable) yet the run terminates
successfully: the failing save is merely logged (as the recorded
`saveConfig` event's `some` error shows), contradicting the claim that a
failing Persisted State `save()` terminates the run with an error.  (The
provider record already matches the resolved IP, so every other step
succeeds.) -/
theorem failing_save_does_not_abort_cex :
    app { sampleEnv with
          fs := ⟨["."], [], []⟩,
          listRecords := Except.ok (sampleRecords ⟨1, 2, 3, 4⟩) } =
      (Except.ok (),
       [Event.resolveIp,
        Event.saveConfig ⟨some ⟨1, 2, 3, 4⟩, none, 0, ".", "cdu.toml", none⟩
          (some "Failed to create file: ./cdu.toml"),
        Event.fetchRecord "home.example.com"]) ∧
    Config.save ⟨some ⟨1, 2, 3, 4⟩, none, 0, ".", "cdu.toml", none⟩ ⟨["."], [], []⟩ =
      Except.error "Failed to create file: ./cdu.toml" := by
  constructor <;> rfl

/-- C1 (amended): the error of any step other than the Notifier and the
persisted-state `save()` — state load, IP resolution, record fetch,
record update — is surfaced immediately and aborts the run with failure;
Notifier errors and `save()` errors are logged and swallowed, so the
run's result never depends on them, and in particular a failing
`save()` does not terminate the run. -/
theorem error_propagation_except_save_notify :
    (∀ (env : Env) (W : List String) (w : PutOutcome),
      (app { env with fs := { env.fs with writableDirs := W }, webhookOutcome := w }).1 =
        (app env).1) ∧
    (∀ (env : Env) (e : String),
      env.dotenvError = none →
      Config.load (Config.defaultConfig env.dockerRuntime env.now) env.fs =
        Except.error e →
      (app env).1 = Except.error e) ∧
    (∀ (env : Env) (c0 : Config) (re : ResolveError),
      env.dotenvError = none →
      Config.load (Config.defaultConfig env.dockerRuntime env.now) env.fs =
        Except.ok c0 →
      (get_outside_ip env.endpoints none).1 = Except.error re →
      (app env).1 = Except.error ("Error: " ++ resolveErrorMessage re)) ∧
    (∀ (env : Env) (c0 : Config) (ip : Ipv4) (e : String),
      env.dotenvError = none →
      Config.load (Config.defaultConfig env.dockerRuntime env.now) env.fs =
        Except.ok c0 →
      (get_outside_ip env.endpoints none).1 = Except.ok ip →
      (applyCliOverrides env.cliConfigDir env.cliWebhook c0).outside_ip ≠ some ip →
      env.apiKeyHeaderError = none →
      get_a_record ⟨env.zoneId, none⟩ env.listRecords env.domain = Except.error e →
      (app env).1 = Except.error e) ∧
    (∀ (env : Env) (c0 : Config) (ip cfIp : Ipv4) (handler : Handler) (e : String)
       (b : Option UpdateBody),
      env.dotenvError = none →
      Config.load (Config.defaultConfig env.dockerRuntime env.now) env.fs =
        Except.ok c0 →
      (get_outside_ip env.endpoints none).1 = Except.ok ip →
      (applyCliOverrides env.cliConfigDir env.cliWebhook c0).outside_ip ≠ some ip →
      env.apiKeyHeaderError = none →
      get_a_record ⟨env.zoneId, none⟩ env.listRecords env.domain =
        Except.ok (cfIp, handler) →
      ip ≠ cfIp →
      env.dryRun = false →
      update_a_record handler env.putOutcome ip = (Except.error e, b) →
      (app env).1 = Except.error e) :=
  ⟨app_result_ignores_save_notify,
   app_load_error_aborts,
   app_resolve_error_aborts,
   app_fetch_error_aborts,
   app_update_error_aborts⟩

/-- C1 witness: concrete runs exercising the five conjuncts — the
result ignores save/notify failures; and a failing load, resolve, fetch
or update each aborts with its error. -/
theorem error_propagation_except_save_notify_witness :
    ((app { sampleEnv with
            fs := { sampleFs with writableDirs := [] },
            webhookOutcome := PutOutcome.transportErr "x" }).1 =
      (app sampleEnv).1) ∧
    (Config.load (Config.defaultConfig false 0) ⟨[], [], []⟩ =
        Except.error "Problem with config directory: ." ∧
      (app { sampleEnv with fs := ⟨[], [], []⟩ }).1 =
        Except.error "Problem with config directory: .") ∧
    ((get_outside_ip ([] : List Endpoint) none).1 =
        Except.error ResolveError.exhausted ∧
      (app { sampleEnv with endpoints := [] }).1 =
        Except.error ("Error: " ++ resolveErrorMessage ResolveError.exhausted)) ∧
    ((app { sampleEnv with listRecords := Except.error "api down" }).1 =
      Except.error "api down") ∧
    ((app { sampleEnv with putOutcome := PutOutcome.transportErr "conn reset" }).1 =
      Except.error "conn reset") :=
  ⟨error_propagation_except_save_notify.1 sampleEnv [] (PutOutcome.transportErr "x"),
   ⟨rfl,
    error_propagation_except_save_notify.2.1 { sampleEnv with fs := ⟨[], [], []⟩ }
      "Problem with config directory: ." rfl rfl⟩,
   ⟨rfl,
    error_propagation_except_save_notify.2.2.1 { sampleEnv with endpoints := [] }
      (Config.defaultConfig false 0) ResolveError.exhausted rfl rfl rfl⟩,
   error_propagation_except_save_notify.2.2.2.1
     { sampleEnv with listRecords := Except.error "api down" }
     (Config.defaultConfig false 0) ⟨1, 2, 3, 4⟩ "api down"
     rfl rfl rfl (by decide) rfl rfl,
   error_propagation_except_save_notify.2.2.2.2
     { sampleEnv with putOutcome := PutOutcome.transportErr "conn reset" }
     (Config.defaultConfig false 0) ⟨1, 2, 3, 4⟩ ⟨5, 6, 7, 8⟩
     ⟨"z1", some ⟨"home.example.com", 300, false, DnsContent.A ⟨5, 6, 7, 8⟩, "rec1"⟩⟩
     "conn reset" (some (updateRequestBody
       ⟨"home.example.com", 300, false, DnsContent.A ⟨5, 6, 7, 8⟩, "rec1"⟩ ⟨1, 2, 3, 4⟩))
     rfl rfl rfl (by decide) rfl rfl (by decide) rfl rfl⟩

end Cdu
